import Mathlib

/-!
Verification of the cute-lights rust-sdk discovery engine and vendor
integrations (src/discover.rs, src/integrations/govee.rs,
src/integrations/openrgb.rs), shallowly embedded in Lean.

Network effects are made explicit: every operation that performs I/O in the
source takes the outcome of that I/O (an `Except String _` value, standing
for Rust's `anyhow::Result`) as an extra argument, and returns the pair of
the operation's result and the successor cached state.  Accessors take no
such argument: in the source they are pure reads of cached fields.

Parts of the repository referenced by the three source files but absent
from src/ (config.rs, utils/future.rs, utils/json.rs, the hue and kasa
integrations) are modelled from the spec and marked as such in their doc
comments.
-/

namespace CuteLights

/-- From src/integrations/govee.rs `GoveeConfig`: `enabled`, `addresses`,
`scan_timeout` (serde default 5000). -/
structure GoveeConfig where
  enabled : Bool
  addresses : List String
  scan_timeout : Nat
  deriving DecidableEq, Repr

/-- From src/integrations/openrgb.rs `OpenRgbConfig`. -/
structure OpenRgbConfig where
  enabled : Bool
  address : String
  port : Nat
  deriving DecidableEq, Repr

/-- Modelled from the spec: `CuteLightsConfig` (config.rs is absent from
src/); per the spec it is a process-wide configuration snapshot with one
section per vendor.  Only the sections used by the files under src/ are
modelled. -/
structure CuteLightsConfig where
  govee : GoveeConfig
  openrgb : OpenRgbConfig
  deriving DecidableEq, Repr

/-! ## Govee wire model (src/integrations/govee.rs, ANCHOR Messages) -/

/-- From govee.rs `DeviceColor`. -/
structure DeviceColor where
  r : Nat
  g : Nat
  b : Nat
  deriving DecidableEq, Repr

/-- From govee.rs `DeviceStatus`: the `devStatus` response payload.  The
wire field `onOff` is an integer; it is decoded to the Bool field `on` by
`boolean_int` (see `DeviceStatus.decode`). -/
structure DeviceStatus where
  «on» : Bool
  brightness : Nat
  color : DeviceColor
  color_temperature_kelvin : Nat
  deriving DecidableEq, Repr

/-- From govee.rs `LanDevice` (the `scan` response payload).  `IpAddr` is
modelled as a string. -/
structure LanDevice where
  ip : String
  device : String
  sku : String
  ble_version_hard : String
  ble_version_soft : String
  wifi_version_hard : String
  wifi_version_soft : String
  deriving DecidableEq, Repr

/-- From govee.rs `Request`: the commands the client can send.  u8 payload
fields are modelled as Nat (values produced by the code are 0..=255). -/
inductive Request where
  | scan
  | devStatus
  | turn (value : Nat)
  | brightness (value : Nat)
  | color (color : DeviceColor)
  deriving DecidableEq, Repr

/-- From govee.rs `Response`. -/
inductive Response where
  | scan (d : LanDevice)
  | devStatus (s : DeviceStatus)
  | void
  deriving DecidableEq, Repr

/-- Modelled from the spec: `boolean_int` (utils/json.rs is absent from
src/).  Per the spec, "the on/off flag is transmitted as an integer 0/1,
not a native boolean — decoding must map 1→true, 0→false"; any other wire
value fails to decode. -/
def boolean_int (n : Nat) : Option Bool :=
  if n = 1 then some true else if n = 0 then some false else none

/-- Decoding a raw `devStatus` wire payload into a `DeviceStatus`: the
integer `onOff` field goes through `boolean_int`, the rest is structural
(serde derive). -/
def DeviceStatus.decode (onOff brightnessField : Nat) (color : DeviceColor)
    (kelvin : Nat) : Option DeviceStatus :=
  (boolean_int onOff).map (fun b => ⟨b, brightnessField, color, kelvin⟩)

/-! ## GoveeLight (src/integrations/govee.rs, ANCHOR GoveeLight) -/

/-- Cached state of a `GoveeLight` handle.  `device_port` is the port
component of `device_addr` (the IP component plays no role in any cached
read); the socket handle itself carries no cached state. -/
structure GoveeLightState where
  device_port : Nat
  is_on : Bool
  brightness : Nat
  red : Nat
  green : Nat
  blue : Nat
  id : String
  deriving DecidableEq, Repr

namespace GoveeLight

/-- `refresh_state`: issues `devStatus` and waits for one response; the
`resp` argument is the outcome of that exchange (`send_message` with
`expect_response = true`).  On a transport error the error propagates with
no cache write; on a non-`DevStatus` response the code returns
`Err("Unexpected response")`, again before any cache write; on a
`DevStatus` response all five cached fields are replaced. -/
def refresh_state (l : GoveeLightState) (resp : Except String Response) :
    Except String Unit × GoveeLightState :=
  match resp with
  | .error e => (.error e, l)
  | .ok (.devStatus s) =>
      (.ok (), { l with is_on := s.«on», brightness := s.brightness,
                        red := s.color.r, green := s.color.g, blue := s.color.b })
  | .ok _ => (.error "Unexpected response", l)

/-- The request built by `set_on`: `Request::Turn { value: on as u8 }`. -/
def set_on_request («on» : Bool) : Request :=
  .turn (if «on» then 1 else 0)

/-- `set_on`: sends a fire-and-forget `turn` command (`sendRes` is the
outcome of `send_message`); on success the cached `is_on` becomes the
requested value, on failure the error propagates before the cache write. -/
def set_on (l : GoveeLightState) («on» : Bool) (sendRes : Except String Unit) :
    Except String Unit × GoveeLightState :=
  match sendRes with
  | .error e => (.error e, l)
  | .ok _ => (.ok (), { l with is_on := «on» })

/-- `set_color`: sends `colorwc` with the requested channels; on success the
three cached channels become the requested values. -/
def set_color (l : GoveeLightState) (red green blue : Nat)
    (sendRes : Except String Unit) : Except String Unit × GoveeLightState :=
  match sendRes with
  | .error e => (.error e, l)
  | .ok _ => (.ok (), { l with red := red, green := green, blue := blue })

/-- `set_brightness`: sends `brightness`; on success the cached brightness
becomes the requested value. -/
def set_brightness (l : GoveeLightState) (b : Nat)
    (sendRes : Except String Unit) : Except String Unit × GoveeLightState :=
  match sendRes with
  | .error e => (.error e, l)
  | .ok _ => (.ok (), { l with brightness := b })

/-- `id()`: `format!("govee::{}", self.id)`. -/
def id (l : GoveeLightState) : String := "govee::" ++ l.id

/-- Accessor `is_on()`: pure read of the cached field. -/
def is_on (l : GoveeLightState) : Bool := l.is_on

/-- Accessor `red()`. -/
def red (l : GoveeLightState) : Nat := l.red

/-- Accessor `green()`. -/
def green (l : GoveeLightState) : Nat := l.green

/-- Accessor `blue()`. -/
def blue (l : GoveeLightState) : Nat := l.blue

/-- Accessor `brightness()`. -/
def brightness (l : GoveeLightState) : Nat := l.brightness

/-- `GoveeLight::new`: parses the address (outcome `parseRes`), builds the
handle with `device_addr = SocketAddr::new(ip, 4003)` and zeroed cache,
then immediately runs `refresh_state` (exchange outcome `resp`); any
failure makes construction fail. -/
def new (ip : String) (parseRes : Except String Unit)
    (resp : Except String Response) : Except String GoveeLightState :=
  match parseRes with
  | .error e => .error e
  | .ok _ =>
      let dev : GoveeLightState :=
        { device_port := 4003, is_on := false, brightness := 0,
          red := 0, green := 0, blue := 0, id := ip }
      match refresh_state dev resp with
      | (.ok _, dev) => .ok dev
      | (.error e, _) => .error e

end GoveeLight

/-- The local bind address of the shared Govee client socket:
`UdpSocket::bind("0.0.0.0:4002")` in `GoveeIntegration::discover`. -/
def govee_bind_addr : String := "0.0.0.0:4002"

/-- The port component of `govee_bind_addr`.  A bind to port 0 would request
an ephemeral (OS-assigned) port; this code requests the fixed port 4002. -/
def govee_bind_port : Nat := 4002

namespace GoveeIntegration

/-- `GoveeIntegration::preflight`. -/
def preflight (config : CuteLightsConfig) : Bool := config.govee.enabled

/-- `GoveeIntegration::discover`: binds the shared client socket (outcome
`bindRes`; a failure propagates as the integration's discovery error), then
for each configured address runs `GoveeLight::new` concurrently (per-address
parse and initial-exchange outcomes `parseRes`/`refreshRes`); a failed
construction is logged and skipped (`None`), the flattened successes are
returned as `Ok`. -/
def discover (config : CuteLightsConfig) (bindRes : Except String Unit)
    (parseRes : String → Except String Unit)
    (refreshRes : String → Except String Response) :
    Except String (List GoveeLightState) :=
  match bindRes with
  | .error e => .error e
  | .ok _ =>
      .ok (config.govee.addresses.filterMap
        (fun ip => (GoveeLight.new ip (parseRes ip) (refreshRes ip)).toOption))

end GoveeIntegration

/-! ## OpenRGB (src/integrations/openrgb.rs) -/

/-- From the `openrgb` crate's `data::Color` as used by the source: three
8-bit channels, constructed as `Color::new(red, green, blue)`. -/
structure Color where
  r : Nat
  g : Nat
  b : Nat
  deriving DecidableEq, Repr

/-- The part of `openrgb::data::Controller` the source reads: its display
`name` and its LED `colors`. -/
structure Controller where
  name : String
  colors : List Color
  deriving DecidableEq, Repr

/-- Cached state of an `OpenRgbLight` handle: the controller id and the
controller snapshot fetched at discovery (or by `refresh_state`). -/
structure OpenRgbLightState where
  controller_id : Nat
  controller : Controller
  deriving DecidableEq, Repr

namespace OpenRgbLight

/-- `refresh_state`: re-fetches the controller (outcome `fetchRes`) and on
success replaces the cached snapshot. -/
def refresh_state (l : OpenRgbLightState)
    (fetchRes : Except String Controller) :
    Except String Unit × OpenRgbLightState :=
  match fetchRes with
  | .error e => (.error e, l)
  | .ok c => (.ok (), { l with controller := c })

/-- `set_color`: sends `update_leds` with every LED set to the requested
color (outcome `updateRes`); the cached `controller` is NOT updated — the
source returns `Ok(())` without touching `self.controller`. -/
def set_color (l : OpenRgbLightState) (_red _green _blue : Nat)
    (updateRes : Except String Unit) :
    Except String Unit × OpenRgbLightState :=
  match updateRes with
  | .error e => (.error e, l)
  | .ok _ => (.ok (), l)

/-- `set_on`: the body is `Ok(())` — no I/O, no state change, so the model
takes no I/O-outcome argument. -/
def set_on (l : OpenRgbLightState) (_on : Bool) :
    Except String Unit × OpenRgbLightState :=
  (.ok (), l)

/-- `set_brightness`: the body is `Ok(())` — no I/O, no state change. -/
def set_brightness (l : OpenRgbLightState) (_b : Nat) :
    Except String Unit × OpenRgbLightState :=
  (.ok (), l)

/-- `id()`: `format!("openrgb::{}", self.controller_id)`. -/
def id (l : OpenRgbLightState) : String :=
  "openrgb::" ++ toString l.controller_id

/-- Accessor `brightness()`: the constant 100. -/
def brightness (_l : OpenRgbLightState) : Nat := 100

/-- Accessor `red()`: reads `self.controller.colors[0].b` (note the source
reads the BLUE component here).  Rust indexing panics on an empty `colors`;
the model totalises with a zero default, which no claim exercises. -/
def red (l : OpenRgbLightState) : Nat :=
  (l.controller.colors.getD 0 ⟨0, 0, 0⟩).b

/-- Accessor `green()`: reads `self.controller.colors[0].g`. -/
def green (l : OpenRgbLightState) : Nat :=
  (l.controller.colors.getD 0 ⟨0, 0, 0⟩).g

/-- Accessor `blue()`: reads `self.controller.colors[0].r` (the RED
component in the source). -/
def blue (l : OpenRgbLightState) : Nat :=
  (l.controller.colors.getD 0 ⟨0, 0, 0⟩).r

/-- Accessor `is_on()`: the constant true. -/
def is_on (_l : OpenRgbLightState) : Bool := true

/-- Accessor `name()`. -/
def name (l : OpenRgbLightState) : String := l.controller.name

/-- Accessor `supports_color()`. -/
def supports_color (_l : OpenRgbLightState) : Bool := true

end OpenRgbLight

namespace OpenRgbIntegration

/-- `OpenRgbIntegration::preflight`. -/
def preflight (config : CuteLightsConfig) : Bool := config.openrgb.enabled

/-- The `for controller_id in 0..count` loop body of
`OpenRgbIntegration::discover`: each `get_controller(controller_id)` is
followed by `?`, so the FIRST failing fetch aborts the whole loop and its
error propagates out of `discover`. -/
def collectControllers (get : Nat → Except String Controller) :
    List Nat → Except String (List OpenRgbLightState)
  | [] => .ok []
  | i :: rest =>
      match get i with
      | .error e => .error e
      | .ok c =>
          match collectControllers get rest with
          | .error e => .error e
          | .ok ls => .ok (⟨i, c⟩ :: ls)

/-- `OpenRgbIntegration::discover`: parses the configured address (outcome
`parseRes`), connects (outcome `connectRes`), reads the controller count
(outcome `countRes`), then fetches controllers 0..count-1 in order, every
step with `?` (error propagation, no per-device absorption). -/
def discover (_config : CuteLightsConfig) (parseRes : Except String Unit)
    (connectRes : Except String Unit) (countRes : Except String Nat)
    (get : Nat → Except String Controller) :
    Except String (List OpenRgbLightState) :=
  match parseRes with
  | .error e => .error e
  | .ok _ =>
      match connectRes with
      | .error e => .error e
      | .ok _ =>
          match countRes with
          | .error e => .error e
          | .ok count => collectControllers get (List.range count)

end OpenRgbIntegration

/-! ## Discoverer (src/discover.rs) -/

/-- One registered integration as the `Discoverer` sees it: the result of
its synchronous `preflight` and, when it runs, the network-determined
outcome of its asynchronous `discover`.  The light type is a parameter
(`Box<dyn Light>` in the source). -/
structure IntegOutcome (L : Type) where
  pre : Bool
  disc : Except String (List L)

/-- The body of the task `Discoverer::register` pushes: on `Ok` the lights,
on `Err` a logged diagnostic and `Vec::new()` — the error is absorbed
before the executor ever sees it. -/
def discoverTask {L : Type} (r : Except String (List L)) : List L :=
  match r with
  | .ok lights => lights
  | .error _ => []

/-- `Discoverer::register`: if `preflight` holds, push the error-absorbing
task onto the batch; otherwise do nothing (in particular `discover` is
never started). -/
def register {L : Type} (batch : List (List L)) (i : IntegOutcome L) :
    List (List L) :=
  if i.pre then batch ++ [discoverTask i.disc] else batch

/-- Modelled from the spec: `FutureBatch::run` (utils/future.rs is absent
from src/).  Per the spec it runs all submitted tasks concurrently, waits
for every one, and returns all their results, never dropping or
short-circuiting; the §3 ordering invariant ("integrations in registration
order") fixes the result order to submission order. -/
def futureBatchRun {L : Type} (batch : List (List L)) : List (List L) :=
  batch

/-- `discover_lights` / `Discoverer::run`: register the four integrations in
the fixed order Kasa, Hue, Govee, OpenRGB, run the batch, and flatten the
per-integration lists into one aggregate list. -/
def discover_lights {L : Type} (kasa hue govee openrgb : IntegOutcome L) :
    List L :=
  (futureBatchRun
    (register (register (register (register [] kasa) hue) govee) openrgb)).flatten

/-- What one integration contributes to the aggregate: nothing when its
preflight fails, its error-absorbed task result otherwise. -/
def contribution {L : Type} (i : IntegOutcome L) : List L :=
  if i.pre then discoverTask i.disc else []

/-! ## Helper lemmas -/

theorem except_toOption_eq_some {ε α : Type} (e : Except ε α) (a : α) :
    e.toOption = some a ↔ e = .ok a := by
  cases e <;> simp [Except.toOption]

theorem discover_lights_eq {L : Type} (k h g o : IntegOutcome L) :
    discover_lights k h g o =
      contribution k ++ contribution h ++ contribution g ++ contribution o := by
  obtain ⟨kp, kd⟩ := k
  obtain ⟨hp, hd⟩ := h
  obtain ⟨gp, gd⟩ := g
  obtain ⟨op, od⟩ := o
  cases kp <;> cases hp <;> cases gp <;> cases op <;>
    simp [discover_lights, register, futureBatchRun, contribution]

theorem contribution_of_error {L : Type} (i : IntegOutcome L) (e : String)
    (hi : i.disc = .error e) : contribution i = [] := by
  unfold contribution discoverTask
  rw [hi]
  cases i.pre <;> simp

theorem string_append_ne_of_head_ne (p q a b : String)
    (hne : p.data.head? ≠ q.data.head?) (hp : p.data ≠ []) (hq : q.data ≠ []) :
    p ++ a ≠ q ++ b := by
  intro h
  have hd := congrArg String.data h
  rw [String.data_append, String.data_append] at hd
  obtain ⟨x, xs, hx⟩ := List.exists_cons_of_ne_nil hp
  obtain ⟨y, ys, hy⟩ := List.exists_cons_of_ne_nil hq
  rw [hx, hy] at hd
  simp only [List.cons_append, List.cons.injEq] at hd
  apply hne
  rw [hx, hy]
  simp [hd.1]

/-- The vendors the Discoverer registers, in registration order. -/
inductive Vendor where
  | kasa
  | hue
  | govee
  | openrgb
  deriving DecidableEq, Repr

/-- Each vendor's global-id namespace prefix.  The govee and openrgb
prefixes come from the source (`format!("govee::{}", ...)`,
`format!("openrgb::{}", ...)`); kasa and hue are modelled from the spec
(`id` "namespaced as `\x22<vendor>::<vendor-local-id>\x22`"; their
integration files are absent from src/). -/
def vendorNamespace : Vendor → String
  | .kasa => "kasa::"
  | .hue => "hue::"
  | .govee => "govee::"
  | .openrgb => "openrgb::"

/-- A vendor-namespaced global light id. -/
def globalId (v : Vendor) (localId : String) : String :=
  vendorNamespace v ++ localId

theorem globalId_ne (v w : Vendor) (a b : String) (hvw : v ≠ w) :
    globalId v a ≠ globalId w b := by
  cases v <;> cases w <;>
    simp only [globalId, vendorNamespace] <;>
    first
      | exact absurd rfl hvw
      | (apply string_append_ne_of_head_ne <;> decide)

theorem goveeLight_id_eq_globalId (l : GoveeLightState) :
    GoveeLight.id l = globalId .govee l.id := rfl

theorem openRgbLight_id_eq_globalId (l : OpenRgbLightState) :
    OpenRgbLight.id l = globalId .openrgb (toString l.controller_id) := rfl

theorem collectControllers_error_of_mem (get : Nat → Except String Controller)
    (ids : List Nat) (i : Nat) (e : String) (hmem : i ∈ ids)
    (herr : get i = .error e) :
    ∃ e', OpenRgbIntegration.collectControllers get ids = .error e' := by
  induction ids with
  | nil => cases hmem
  | cons j rest ih =>
      rcases List.mem_cons.mp hmem with rfl | hrest
      · exact ⟨e, by simp [OpenRgbIntegration.collectControllers, herr]⟩
      · cases hj : get j with
        | error e2 => exact ⟨e2, by simp [OpenRgbIntegration.collectControllers, hj]⟩
        | ok c =>
            obtain ⟨e', he'⟩ := ih hrest
            exact ⟨e', by simp [OpenRgbIntegration.collectControllers, hj, he']⟩

/-! ## Concrete demonstration inputs shared by witnesses and
counterexamples -/

/-- A configuration with both modelled vendors disabled. -/
def disabledConfig : CuteLightsConfig :=
  ⟨⟨false, [], 5000⟩, ⟨false, "localhost", 6742⟩⟩

/-- A configuration with both modelled vendors enabled. -/
def demoConfig : CuteLightsConfig :=
  ⟨⟨true, ["10.0.0.5"], 5000⟩, ⟨true, "127.0.0.1", 6742⟩⟩

/-- The `devStatus` payload of the spec's §8 scenario. -/
def demoStatus : DeviceStatus := ⟨true, 80, ⟨10, 20, 30⟩, 0⟩

/-- The Govee light handle produced by a successful initial exchange
answering `demoStatus`. -/
def demoGoveeLight : GoveeLightState :=
  ⟨4003, true, 80, 10, 20, 30, "10.0.0.5"⟩

/-- One OpenRGB controller snapshot. -/
def demoController : Controller := ⟨"c0", [⟨0, 0, 0⟩]⟩

/-- An OpenRGB light whose cached first LED is (r 1, g 2, b 3). -/
def rgbDemo : OpenRgbLightState := ⟨0, ⟨"demo", [⟨1, 2, 3⟩]⟩⟩

/-- A controller fetcher where controller 0 answers and controller 1 is
unreachable. -/
def flakyGet : Nat → Except String Controller :=
  fun i => if i = 0 then .ok demoController else .error "controller 1 unreachable"

/-- Per-address parse outcomes that always succeed. -/
def parseAllOk : String → Except String Unit := fun _ => .ok ()

/-- Per-address initial exchanges that always answer `demoStatus`. -/
def refreshAllDemo : String → Except String Response :=
  fun _ => .ok (.devStatus demoStatus)

/-! ## Claims -/

/-- C1: when one registered integration's `discover` returns an error, the
Discoverer's task absorbs it into an empty contribution, `discover_lights`
still returns a plain list (no error can propagate by type), and every
other integration's contribution appears unchanged in the aggregate. -/
theorem discovery_error_isolated {L : Type} (k h g o : IntegOutcome L)
    (e : String) (hg : g.disc = .error e) :
    discover_lights k h g o =
      contribution k ++ contribution h ++ contribution o := by
  rw [discover_lights_eq, contribution_of_error g e hg]
  simp

theorem discovery_error_isolated_witness :
    discover_lights (⟨true, .ok [1]⟩ : IntegOutcome Nat) ⟨true, .ok [2]⟩
        ⟨true, .error "boom"⟩ ⟨true, .ok [3, 4]⟩
      = contribution (⟨true, .ok [1]⟩ : IntegOutcome Nat)
        ++ contribution ⟨true, .ok [2]⟩ ++ contribution ⟨true, .ok [3, 4]⟩ :=
  discovery_error_isolated _ _ _ _ "boom" rfl

/-- C4: the aggregate returned by `discover_lights` is the concatenation of
the four integrations' contributions in registration order (Kasa, Hue,
Govee, OpenRGB), each contribution kept in its integration's own order. -/
theorem discovery_preserves_registration_order {L : Type}
    (k h g o : IntegOutcome L) :
    discover_lights k h g o =
      contribution k ++ contribution h ++ contribution g ++ contribution o :=
  discover_lights_eq k h g o

/-- C5: when an integration's preflight is false (govee and openrgb slots
shown with their real `preflight` predicates), the aggregate is identical
for every possible discovery outcome of that integration — its `discover`
is never consulted, so no network I/O happens on its behalf — and it
contributes zero lights. -/
theorem preflight_false_skips_discover {L : Type} (cfg : CuteLightsConfig)
    (hgov : cfg.govee.enabled = false) (horgb : cfg.openrgb.enabled = false)
    (k h o : IntegOutcome L) (d d' : Except String (List L)) :
    (discover_lights k h ⟨GoveeIntegration.preflight cfg, d⟩ o
       = discover_lights k h ⟨GoveeIntegration.preflight cfg, d'⟩ o
     ∧ discover_lights k h ⟨GoveeIntegration.preflight cfg, d⟩ o
       = contribution k ++ contribution h ++ contribution o)
    ∧ (discover_lights k h o ⟨OpenRgbIntegration.preflight cfg, d⟩
       = discover_lights k h o ⟨OpenRgbIntegration.preflight cfg, d'⟩
     ∧ discover_lights k h o ⟨OpenRgbIntegration.preflight cfg, d⟩
       = contribution k ++ contribution h ++ contribution o) := by
  refine ⟨⟨?_, ?_⟩, ?_, ?_⟩ <;>
    simp [discover_lights_eq, contribution, GoveeIntegration.preflight,
      OpenRgbIntegration.preflight, hgov, horgb]

theorem preflight_false_skips_discover_witness :
    (discover_lights (⟨true, .ok [1]⟩ : IntegOutcome Nat) ⟨true, .ok [2]⟩
         ⟨GoveeIntegration.preflight disabledConfig, .ok [9]⟩ ⟨true, .ok [3]⟩
       = discover_lights ⟨true, .ok [1]⟩ ⟨true, .ok [2]⟩
         ⟨GoveeIntegration.preflight disabledConfig, .error "down"⟩ ⟨true, .ok [3]⟩
     ∧ discover_lights (⟨true, .ok [1]⟩ : IntegOutcome Nat) ⟨true, .ok [2]⟩
         ⟨GoveeIntegration.preflight disabledConfig, .ok [9]⟩ ⟨true, .ok [3]⟩
       = contribution (⟨true, .ok [1]⟩ : IntegOutcome Nat)
         ++ contribution ⟨true, .ok [2]⟩ ++ contribution ⟨true, .ok [3]⟩)
    ∧ (discover_lights (⟨true, .ok [1]⟩ : IntegOutcome Nat) ⟨true, .ok [2]⟩
         ⟨true, .ok [3]⟩ ⟨OpenRgbIntegration.preflight disabledConfig, .ok [9]⟩
       = discover_lights ⟨true, .ok [1]⟩ ⟨true, .ok [2]⟩
         ⟨true, .ok [3]⟩ ⟨OpenRgbIntegration.preflight disabledConfig, .error "down"⟩
     ∧ discover_lights (⟨true, .ok [1]⟩ : IntegOutcome Nat) ⟨true, .ok [2]⟩
         ⟨true, .ok [3]⟩ ⟨OpenRgbIntegration.preflight disabledConfig, .ok [9]⟩
       = contribution (⟨true, .ok [1]⟩ : IntegOutcome Nat)
         ++ contribution ⟨true, .ok [2]⟩ ++ contribution ⟨true, .ok [3]⟩) :=
  preflight_false_skips_discover disabledConfig rfl rfl _ _ _ (.ok [9]) (.error "down")

/-- C2 counterexample: with two OpenRGB controllers of which only
controller 0 answers, `OpenRgbIntegration::discover` returns the
controller-1 error instead of the reachable subset `[controller 0]` — the
claim that no integration's discover fails on partial device failure is
false for OpenRGB. -/
theorem openrgb_partial_failure_fails_discover :
    OpenRgbIntegration.discover demoConfig (.ok ()) (.ok ()) (.ok 2) flakyGet
      = .error "controller 1 unreachable"
    ∧ OpenRgbIntegration.discover demoConfig (.ok ()) (.ok ()) (.ok 2) flakyGet
      ≠ .ok [⟨0, demoController⟩] := by
  refine ⟨rfl, fun h => ?_⟩
  exact Except.noConfusion h

/-- C2 amended: the Govee integration does return exactly the reachable
subset and never errors once its socket is bound — a light is in its result
iff some configured address's construction succeeded with it; the OpenRGB
integration instead propagates the error of any failing controller fetch,
so one failing controller fails the whole vendor's discover. -/
theorem discover_partial_failure_amended :
    (∀ (cfg : CuteLightsConfig) (parseRes : String → Except String Unit)
       (refreshRes : String → Except String Response) (l : GoveeLightState),
       (∀ e, GoveeIntegration.discover cfg (.ok ()) parseRes refreshRes ≠ .error e)
       ∧ (∀ ls, GoveeIntegration.discover cfg (.ok ()) parseRes refreshRes = .ok ls →
            (l ∈ ls ↔ ∃ ip ∈ cfg.govee.addresses,
               GoveeLight.new ip (parseRes ip) (refreshRes ip) = .ok l)))
    ∧ (∀ (cfg : CuteLightsConfig) (p c : Except String Unit) (n i : Nat)
         (get : Nat → Except String Controller) (e : String),
         i < n → get i = .error e →
         ∃ e', OpenRgbIntegration.discover cfg p c (.ok n) get = .error e') := by
  constructor
  · intro cfg parseRes refreshRes l
    constructor
    · intro e
      simp [GoveeIntegration.discover]
    · intro ls hls
      have hls' : ls = cfg.govee.addresses.filterMap
          (fun ip => (GoveeLight.new ip (parseRes ip) (refreshRes ip)).toOption) := by
        simpa [GoveeIntegration.discover] using hls.symm
      subst hls'
      simp [List.mem_filterMap, except_toOption_eq_some]
  · intro cfg p c n i get e hi herr
    cases p with
    | error e2 => exact ⟨e2, rfl⟩
    | ok _ =>
        cases c with
        | error e2 => exact ⟨e2, rfl⟩
        | ok _ =>
            obtain ⟨e', he'⟩ :=
              collectControllers_error_of_mem get (List.range n) i e
                (List.mem_range.mpr hi) herr
            exact ⟨e', by simpa [OpenRgbIntegration.discover] using he'⟩

theorem discover_partial_failure_amended_witness :
    ((GoveeIntegration.discover demoConfig (.ok ()) parseAllOk refreshAllDemo
        ≠ .error "down")
     ∧ (demoGoveeLight ∈ [demoGoveeLight] ↔
          ∃ ip ∈ demoConfig.govee.addresses,
            GoveeLight.new ip (parseAllOk ip) (refreshAllDemo ip) = .ok demoGoveeLight))
    ∧ ∃ e', OpenRgbIntegration.discover demoConfig (.ok ()) (.ok ()) (.ok 2) flakyGet
        = .error e' :=
  ⟨⟨(discover_partial_failure_amended.1 demoConfig parseAllOk refreshAllDemo
        demoGoveeLight).1 "down",
    (discover_partial_failure_amended.1 demoConfig parseAllOk refreshAllDemo
        demoGoveeLight).2 [demoGoveeLight] rfl⟩,
   discover_partial_failure_amended.2 demoConfig (.ok ()) (.ok ()) 2 1 flakyGet
     "controller 1 unreachable" (by decide) rfl⟩

/-- C3 counterexample: an OpenRGB light whose cached first LED is
(r 1, g 2, b 3); `set_color(9,9,9)` succeeds, yet the accessors still
return the stale cache — and channel-swapped at that (`red()` gives the
cached BLUE component 3) — not `(9,9,9)`. -/
theorem openrgb_set_color_not_write_through :
    (OpenRgbLight.set_color rgbDemo 9 9 9 (.ok ())).1 = .ok ()
    ∧ OpenRgbLight.red (OpenRgbLight.set_color rgbDemo 9 9 9 (.ok ())).2 = 3
    ∧ OpenRgbLight.green (OpenRgbLight.set_color rgbDemo 9 9 9 (.ok ())).2 = 2
    ∧ OpenRgbLight.blue (OpenRgbLight.set_color rgbDemo 9 9 9 (.ok ())).2 = 1
    ∧ ¬(OpenRgbLight.red (OpenRgbLight.set_color rgbDemo 9 9 9 (.ok ())).2 = 9
        ∧ OpenRgbLight.green (OpenRgbLight.set_color rgbDemo 9 9 9 (.ok ())).2 = 9
        ∧ OpenRgbLight.blue (OpenRgbLight.set_color rgbDemo 9 9 9 (.ok ())).2 = 9) := by
  refine ⟨rfl, rfl, rfl, rfl, ?_⟩
  decide

/-- C3 amended: the write-through law holds for GoveeLight — after a
successful `set_color(r,g,b)` its accessors return exactly `(r,g,b)`, with
no device query (the accessors take no I/O outcome at all) — while
OpenRgbLight's `set_color` leaves the whole cached handle state unchanged,
so its accessors keep returning the pre-call snapshot. -/
theorem set_color_write_through_amended (gl : GoveeLightState)
    (o : OpenRgbLightState) (r g b : Nat) (res : Except String Unit) :
    (GoveeLight.red (GoveeLight.set_color gl r g b (.ok ())).2 = r
     ∧ GoveeLight.green (GoveeLight.set_color gl r g b (.ok ())).2 = g
     ∧ GoveeLight.blue (GoveeLight.set_color gl r g b (.ok ())).2 = b)
    ∧ (OpenRgbLight.set_color o r g b res).2 = o :=
  ⟨⟨rfl, rfl, rfl⟩, by cases res <;> rfl⟩

/-- C6: vendor-namespaced global ids never collide across distinct vendors,
whatever the vendor-local identifiers are; in particular a GoveeLight and an
OpenRgbLight never share an `id()`. -/
theorem vendor_ids_never_collide (v w : Vendor) (a b : String)
    (g : GoveeLightState) (o : OpenRgbLightState) (hvw : v ≠ w) :
    globalId v a ≠ globalId w b
    ∧ GoveeLight.id g ≠ OpenRgbLight.id o := by
  refine ⟨globalId_ne v w a b hvw, ?_⟩
  rw [goveeLight_id_eq_globalId, openRgbLight_id_eq_globalId]
  exact globalId_ne _ _ _ _ (by decide)

theorem vendor_ids_never_collide_witness :
    globalId .govee "light-1" ≠ globalId .openrgb "light-1"
    ∧ GoveeLight.id demoGoveeLight ≠ OpenRgbLight.id rgbDemo :=
  vendor_ids_never_collide .govee .openrgb "light-1" "light-1"
    demoGoveeLight rgbDemo (by decide)

/-- C7: decoding the integer wire field maps `onOff=1` to a status with
`on = true` and `onOff=0` to `on = false`, a `devStatus` refresh makes
`is_on()` report exactly the decoded flag, and `set_on` encodes the
reverse: `turn` with value 1 for true and 0 for false. -/
theorem onoff_wire_mapping (l : GoveeLightState) (br kelvin : Nat)
    (c : DeviceColor) (s : DeviceStatus) :
    DeviceStatus.decode 1 br c kelvin = some ⟨true, br, c, kelvin⟩
    ∧ DeviceStatus.decode 0 br c kelvin = some ⟨false, br, c, kelvin⟩
    ∧ GoveeLight.is_on (GoveeLight.refresh_state l (.ok (.devStatus s))).2 = s.«on»
    ∧ GoveeLight.set_on_request true = .turn 1
    ∧ GoveeLight.set_on_request false = .turn 0 :=
  ⟨rfl, rfl, rfl, rfl, rfl⟩

/-- C8: every failing GoveeLight operation returns the error and the very
same cached state — a failed send propagates before any cache write, and a
failed or ill-shaped `devStatus` exchange leaves all five cached fields
untouched; the handle value is unchanged, hence usable afterwards. -/
theorem govee_failed_op_keeps_cache (l : GoveeLightState) («on» : Bool)
    (r g b br : Nat) (e : String) (d : LanDevice) :
    GoveeLight.set_on l «on» (.error e) = (.error e, l)
    ∧ GoveeLight.set_color l r g b (.error e) = (.error e, l)
    ∧ GoveeLight.set_brightness l br (.error e) = (.error e, l)
    ∧ GoveeLight.refresh_state l (.error e) = (.error e, l)
    ∧ GoveeLight.refresh_state l (.ok (.scan d)) = (.error "Unexpected response", l)
    ∧ GoveeLight.refresh_state l (.ok .void) = (.error "Unexpected response", l) :=
  ⟨rfl, rfl, rfl, rfl, rfl, rfl⟩

/-- C9 counterexample: the Govee client socket is bound to the FIXED local
port 4002 (`UdpSocket::bind("0.0.0.0:4002")`), not an ephemeral one — an
ephemeral-port request would bind port 0. -/
theorem govee_bind_port_not_ephemeral :
    govee_bind_addr = "0.0.0.0:4002" ∧ govee_bind_port = 4002
    ∧ govee_bind_port ≠ 0 := by
  refine ⟨rfl, rfl, ?_⟩
  decide

/-- C9 amended: the client socket is bound to the fixed local port 4002,
and every constructed GoveeLight handle targets the device's fixed control
port 4003. -/
theorem govee_ports_amended (ip : String) (parseRes : Except String Unit)
    (resp : Except String Response) (l : GoveeLightState)
    (hnew : GoveeLight.new ip parseRes resp = .ok l) :
    govee_bind_addr = "0.0.0.0:4002" ∧ govee_bind_port = 4002
    ∧ l.device_port = 4003 := by
  refine ⟨rfl, rfl, ?_⟩
  cases parseRes with
  | error e => exact Except.noConfusion hnew
  | ok u =>
      cases resp with
      | error e => exact Except.noConfusion hnew
      | ok r =>
          cases r with
          | devStatus s =>
              have hl := (Except.ok.injEq _ _).mp hnew
              rw [← hl]
          | scan d => exact Except.noConfusion hnew
          | void => exact Except.noConfusion hnew

theorem govee_ports_amended_witness :
    govee_bind_addr = "0.0.0.0:4002" ∧ govee_bind_port = 4002
    ∧ demoGoveeLight.device_port = 4003 :=
  govee_ports_amended "10.0.0.5" (.ok ()) (.ok (.devStatus demoStatus))
    demoGoveeLight rfl

/-- C10: OpenRgbLight's `set_on` and `set_brightness` succeed with no I/O
outcome consumed and no state change, `is_on()` is constantly true and
`brightness()` constantly 100, whatever the handle's state. -/
theorem openrgb_noop_controls (l : OpenRgbLightState) («on» : Bool) (b : Nat) :
    OpenRgbLight.set_on l «on» = (.ok (), l)
    ∧ OpenRgbLight.set_brightness l b = (.ok (), l)
    ∧ OpenRgbLight.is_on l = true
    ∧ OpenRgbLight.brightness l = 100 :=
  ⟨rfl, rfl, rfl, rfl⟩

end CuteLights
